import Mathlib

/-!
Verification of the candidate-to-employee workflow engine of the
UNSRireki staffing-pipeline backend.

The definitions below are a shallow embedding of the Python handlers in
`backend/app/api/applications.py` and `backend/app/api/joining_notices.py`
together with the entity model of `backend/app/models/models.py`.

Modelling conventions:
* The database session is a `Store` value holding the rows of each table;
  every handler becomes a function `Store → args → Store × Except ApiError α`.
  A raised `HTTPException` corresponds to returning the original store
  together with `.error`, matching the source where an exception aborts the
  request before `db.commit()`.
* `datetime.now(timezone.utc)` and `date.today()` become explicit `now` /
  `today : Nat` arguments supplied by the clock collaborator.
* Autoincrement primary keys of freshly inserted rows become explicit
  `newId` arguments supplied by the store.
* Python truthiness of nullable columns is modelled exactly: an optional
  string is falsy when absent or empty, an optional integer is falsy when
  absent or zero, an optional enum value is falsy only when absent.
-/

deriving instance DecidableEq for Except

namespace Rireki

/-- `CandidateStatus` of `models.py`. -/
inductive CandidateStatus where
  | registered
  | presented
  | accepted
  | rejected
  | processing
  | hired
deriving DecidableEq, Repr

/-- `ApplicationStatus` of `models.py`. -/
inductive ApplicationStatus where
  | pending
  | accepted
  | rejected
deriving DecidableEq, Repr

/-- `JoiningNoticeStatus` of `models.py`. -/
inductive JoiningNoticeStatus where
  | draft
  | pending
  | approved
  | rejected
deriving DecidableEq, Repr

/-- `EmploymentType` of `models.py`: haken (dispatch) or ukeoi (contract). -/
inductive EmploymentType where
  | haken
  | ukeoi
deriving DecidableEq, Repr

/-- `HousingType` of `models.py`. -/
inductive HousingType where
  | shataku
  | own
  | rental
  | other
deriving DecidableEq, Repr

/-- Python truthiness of a nullable string column: `None` and `""` are falsy. -/
def strTruthy : Option String → Bool
  | none => false
  | some s => !(s == "")

/-- Python truthiness of a nullable integer column: `None` and `0` are falsy. -/
def natTruthy : Option Nat → Bool
  | none => false
  | some n => !(n == 0)

/-- Python truthiness of a nullable `EmploymentType` column: the enum values
are the non-empty strings "haken"/"ukeoi", hence truthy; only `None` is falsy. -/
def etTruthy : Option EmploymentType → Bool
  | none => false
  | some _ => true

/-- Python truthiness of a nullable `HousingType` column. -/
def htTruthy : Option HousingType → Bool
  | none => false
  | some _ => true

/-- A row of the `candidates` table.  Only `id` and `status` are read or
written by the workflow handlers; the identity fields are opaque to them. -/
structure Candidate where
  id : Nat
  status : CandidateStatus
deriving DecidableEq, Repr

/-- A row of the `applications` table. -/
structure Application where
  id : Nat
  candidate_id : Nat
  client_company_id : Option Nat := none
  client_company_name : Option String := none
  presented_at : Option Nat := none
  status : Option ApplicationStatus := none
  result_at : Option Nat := none
  result_notes : Option String := none
  created_by : Option Nat := none
deriving DecidableEq, Repr

/-- A row of the `joining_notices` table. -/
structure JoiningNotice where
  id : Nat
  application_id : Option Nat := none
  candidate_id : Nat
  employment_type : Option EmploymentType := none
  full_name : Option String := none
  name_kana : Option String := none
  gender : Option String := none
  nationality : Option String := none
  birth_date : Option Nat := none
  visa_type : Option String := none
  visa_expiry : Option Nat := none
  postal_code : Option String := none
  address : Option String := none
  building_name : Option String := none
  housing_type : Option HousingType := none
  apartment_id : Option Nat := none
  move_in_date : Option Nat := none
  assignment_company_id : Option Nat := none
  assignment_company : Option String := none
  assignment_location : Option String := none
  assignment_line : Option String := none
  job_description : Option String := none
  hourly_rate : Option Nat := none
  billing_rate : Option Nat := none
  bank_account_name : Option String := none
  bank_name : Option String := none
  branch_number : Option String := none
  branch_name : Option String := none
  account_number : Option String := none
  status : JoiningNoticeStatus := .draft
  submitted_at : Option Nat := none
  approved_at : Option Nat := none
  approved_by : Option Nat := none
  rejection_reason : Option String := none
  created_by : Option Nat := none
deriving DecidableEq, Repr

/-- A row of the `employees` table (the fields populated at approval). -/
structure Employee where
  id : Nat
  employee_number : Nat
  joining_notice_id : Option Nat := none
  candidate_id : Option Nat := none
  full_name : Option String := none
  name_kana : Option String := none
  gender : Option String := none
  nationality : Option String := none
  birth_date : Option Nat := none
  visa_expiry : Option Nat := none
  visa_type : Option String := none
  postal_code : Option String := none
  address : Option String := none
  building_name : Option String := none
  hire_date : Option Nat := none
  employment_type : Option EmploymentType := none
  housing_type : Option HousingType := none
  apartment_id : Option Nat := none
deriving DecidableEq, Repr

/-- A row of the `haken_assignments` table (the fields populated at approval). -/
structure HakenAssignment where
  id : Nat
  employee_id : Nat
  client_company_id : Option Nat := none
  client_company : Option String := none
  assignment_location : Option String := none
  assignment_line : Option String := none
  job_description : Option String := none
  hourly_rate : Option Nat := none
  billing_rate : Option Nat := none
  move_in_date : Option Nat := none
  start_date : Option Nat := none
deriving DecidableEq, Repr

/-- A row of the `ukeoi_assignments` table (the fields populated at approval). -/
structure UkeoiAssignment where
  id : Nat
  employee_id : Nat
  hourly_rate : Option Nat := none
  move_in_date : Option Nat := none
  start_date : Option Nat := none
  bank_account_name : Option String := none
  bank_name : Option String := none
  branch_number : Option String := none
  branch_name : Option String := none
  account_number : Option String := none
deriving DecidableEq, Repr

/-- A row of the `company_apartments` table. -/
structure CompanyApartment where
  id : Nat
  capacity : Option Nat := none
  current_occupants : Nat := 0
  is_active : Bool := true
deriving DecidableEq, Repr

/-- The entity store: the rows of the workflow tables. -/
structure Store where
  candidates : List Candidate := []
  applications : List Application := []
  notices : List JoiningNotice := []
  employees : List Employee := []
  haken_assignments : List HakenAssignment := []
  ukeoi_assignments : List UkeoiAssignment := []
  apartments : List CompanyApartment := []
deriving DecidableEq, Repr

/-- An `HTTPException`: HTTP status code and detail message. -/
structure ApiError where
  code : Nat
  detail : String
deriving DecidableEq, Repr

def notFound (msg : String) : ApiError := ⟨404, msg⟩

def badRequest (msg : String) : ApiError := ⟨400, msg⟩

/-- `select(Candidate).where(Candidate.id == cid)` + `scalar_one_or_none()`. -/
def findCandidate (db : Store) (cid : Nat) : Option Candidate :=
  db.candidates.find? (fun c => c.id == cid)

/-- `select(Application).where(Application.id == aid)` + `scalar_one_or_none()`. -/
def findApplication (db : Store) (aid : Nat) : Option Application :=
  db.applications.find? (fun a => a.id == aid)

/-- `select(JoiningNotice).where(JoiningNotice.id == nid)` + `scalar_one_or_none()`. -/
def findNotice (db : Store) (nid : Nat) : Option JoiningNotice :=
  db.notices.find? (fun n => n.id == nid)

/-- Committing a mutation of the candidate row with id `cid`. -/
def updateCandidateStatus (db : Store) (cid : Nat) (st : CandidateStatus) : Store :=
  { db with candidates :=
      db.candidates.map (fun c => if c.id == cid then { c with status := st } else c) }

/-- Committing a mutation of an application row (matched by id). -/
def setApplication (db : Store) (a : Application) : Store :=
  { db with applications :=
      db.applications.map (fun x => if x.id == a.id then a else x) }

/-- Committing a mutation of a joining-notice row (matched by id). -/
def setNotice (db : Store) (n : JoiningNotice) : Store :=
  { db with notices :=
      db.notices.map (fun x => if x.id == n.id then n else x) }

/-- Request body `ApplicationCreate` of `schemas/application.py`. -/
structure ApplicationCreate where
  candidate_id : Nat
  client_company_id : Option Nat := none
  client_company_name : Option String := none
deriving DecidableEq, Repr

/-- Request body `ApplicationUpdate` of `schemas/application.py`; both fields
are optional and default to `None`. -/
structure ApplicationUpdate where
  status : Option ApplicationStatus := none
  result_notes : Option String := none
deriving DecidableEq, Repr

/-- `create_application` of `api/applications.py` (present a candidate):
verifies the candidate exists, inserts an Application with status pending and
`presented_at = now`, and sets the candidate's status to presented. -/
def create_application (db : Store) (data : ApplicationCreate) (userId : Nat)
    (now : Nat) (newId : Nat) : Store × Except ApiError Application :=
  match findCandidate db data.candidate_id with
  | none => (db, .error (notFound "Candidate not found"))
  | some _ =>
    let application : Application :=
      { id := newId
        candidate_id := data.candidate_id
        client_company_id := data.client_company_id
        client_company_name := data.client_company_name
        presented_at := some now
        status := some .pending
        created_by := some userId }
    let db2 := { db with applications := db.applications ++ [application] }
    let db3 := updateCandidateStatus db2 data.candidate_id .presented
    (db3, .ok application)

/-- `record_result` of `api/applications.py`: requires the application's
status to be pending, stores the outcome with `result_at = now`, and moves
the candidate (when it exists) to accepted or rejected accordingly. -/
def record_result (db : Store) (application_id : Nat) (rd : ApplicationUpdate)
    (now : Nat) : Store × Except ApiError Application :=
  match findApplication db application_id with
  | none => (db, .error (notFound "Application not found"))
  | some application =>
    if application.status ≠ some .pending then
      (db, .error (badRequest "Application result already recorded"))
    else
      let app2 := { application with
        status := rd.status
        result_at := some now
        result_notes := rd.result_notes }
      let db2 := setApplication db app2
      let db3 :=
        match findCandidate db application.candidate_id with
        | none => db2
        | some cand =>
          if rd.status = some .accepted then
            updateCandidateStatus db2 cand.id .accepted
          else if rd.status = some .rejected then
            updateCandidateStatus db2 cand.id .rejected
          else db2
      (db3, .ok app2)

/-- Request body `JoiningNoticeCreate` of `schemas/joining_notice.py`:
`employment_type`, `full_name`, `housing_type` and `candidate_id` are
required, everything else optional. -/
structure JoiningNoticeCreate where
  application_id : Option Nat := none
  candidate_id : Nat
  employment_type : EmploymentType
  full_name : String
  name_kana : Option String := none
  gender : Option String := none
  nationality : Option String := none
  birth_date : Option Nat := none
  visa_type : Option String := none
  visa_expiry : Option Nat := none
  postal_code : Option String := none
  address : Option String := none
  building_name : Option String := none
  housing_type : HousingType
  apartment_id : Option Nat := none
  move_in_date : Option Nat := none
  assignment_company_id : Option Nat := none
  assignment_company : Option String := none
  assignment_location : Option String := none
  assignment_line : Option String := none
  job_description : Option String := none
  hourly_rate : Option Nat := none
  billing_rate : Option Nat := none
  bank_account_name : Option String := none
  bank_name : Option String := none
  branch_number : Option String := none
  branch_name : Option String := none
  account_number : Option String := none
deriving DecidableEq, Repr

/-- `JoiningNotice(**notice_data.model_dump(), status=DRAFT, created_by=user.id)`. -/
def noticeFromCreate (newId : Nat) (d : JoiningNoticeCreate) (userId : Nat) : JoiningNotice :=
  { id := newId
    application_id := d.application_id
    candidate_id := d.candidate_id
    employment_type := some d.employment_type
    full_name := some d.full_name
    name_kana := d.name_kana
    gender := d.gender
    nationality := d.nationality
    birth_date := d.birth_date
    visa_type := d.visa_type
    visa_expiry := d.visa_expiry
    postal_code := d.postal_code
    address := d.address
    building_name := d.building_name
    housing_type := some d.housing_type
    apartment_id := d.apartment_id
    move_in_date := d.move_in_date
    assignment_company_id := d.assignment_company_id
    assignment_company := d.assignment_company
    assignment_location := d.assignment_location
    assignment_line := d.assignment_line
    job_description := d.job_description
    hourly_rate := d.hourly_rate
    billing_rate := d.billing_rate
    bank_account_name := d.bank_account_name
    bank_name := d.bank_name
    branch_number := d.branch_number
    branch_name := d.branch_name
    account_number := d.account_number
    status := .draft
    created_by := some userId }

/-- `if notice_data.application_id: ... if not application or
application.status != ApplicationStatus.ACCEPTED: raise`, as a predicate:
true when the request carries a truthy `application_id` that does not
resolve to an accepted application. -/
def applicationCheckFails (db : Store) (d : JoiningNoticeCreate) : Bool :=
  natTruthy d.application_id &&
    (match findApplication db (d.application_id.getD 0) with
     | none => true
     | some application => !(application.status == some .accepted))

/-- `create_joining_notice` of `api/joining_notices.py`: requires the
candidate to exist with status accepted; when `application_id` is truthy the
referenced application must exist with status accepted; inserts the notice
with status draft and moves the candidate to processing. -/
def create_joining_notice (db : Store) (d : JoiningNoticeCreate) (userId : Nat)
    (newId : Nat) : Store × Except ApiError JoiningNotice :=
  match findCandidate db d.candidate_id with
  | none => (db, .error (notFound "Candidate not found"))
  | some candidate =>
    if candidate.status ≠ .accepted then
      (db, .error (badRequest "Candidate must be accepted before creating joining notice"))
    else
      if applicationCheckFails db d then
        (db, .error (badRequest "Application must be accepted"))
      else
        let notice := noticeFromCreate newId d userId
        let db2 := { db with notices := db.notices ++ [notice] }
        (updateCandidateStatus db2 d.candidate_id .processing, .ok notice)

/-- Request body `JoiningNoticeUpdate` of `schemas/joining_notice.py` with
`exclude_unset` merging: the outer `Option` records whether the field was
provided at all, the inner one is the (nullable) value written when it was. -/
structure JoiningNoticeUpdate where
  full_name : Option (Option String) := none
  name_kana : Option (Option String) := none
  gender : Option (Option String) := none
  nationality : Option (Option String) := none
  birth_date : Option (Option Nat) := none
  visa_type : Option (Option String) := none
  visa_expiry : Option (Option Nat) := none
  postal_code : Option (Option String) := none
  address : Option (Option String) := none
  building_name : Option (Option String) := none
  housing_type : Option (Option HousingType) := none
  apartment_id : Option (Option Nat) := none
  move_in_date : Option (Option Nat) := none
  assignment_company_id : Option (Option Nat) := none
  assignment_company : Option (Option String) := none
  assignment_location : Option (Option String) := none
  assignment_line : Option (Option String) := none
  job_description : Option (Option String) := none
  hourly_rate : Option (Option Nat) := none
  billing_rate : Option (Option Nat) := none
  bank_account_name : Option (Option String) := none
  bank_name : Option (Option String) := none
  branch_number : Option (Option String) := none
  branch_name : Option (Option String) := none
  account_number : Option (Option String) := none
deriving DecidableEq, Repr

/-- `for field, value in update_data.items(): setattr(notice, field, value)`
over the fields present in the request. -/
def applyNoticeUpdate (patch : JoiningNoticeUpdate) (n : JoiningNotice) : JoiningNotice :=
  { n with
    full_name := patch.full_name.getD n.full_name
    name_kana := patch.name_kana.getD n.name_kana
    gender := patch.gender.getD n.gender
    nationality := patch.nationality.getD n.nationality
    birth_date := patch.birth_date.getD n.birth_date
    visa_type := patch.visa_type.getD n.visa_type
    visa_expiry := patch.visa_expiry.getD n.visa_expiry
    postal_code := patch.postal_code.getD n.postal_code
    address := patch.address.getD n.address
    building_name := patch.building_name.getD n.building_name
    housing_type := patch.housing_type.getD n.housing_type
    apartment_id := patch.apartment_id.getD n.apartment_id
    move_in_date := patch.move_in_date.getD n.move_in_date
    assignment_company_id := patch.assignment_company_id.getD n.assignment_company_id
    assignment_company := patch.assignment_company.getD n.assignment_company
    assignment_location := patch.assignment_location.getD n.assignment_location
    assignment_line := patch.assignment_line.getD n.assignment_line
    job_description := patch.job_description.getD n.job_description
    hourly_rate := patch.hourly_rate.getD n.hourly_rate
    billing_rate := patch.billing_rate.getD n.billing_rate
    bank_account_name := patch.bank_account_name.getD n.bank_account_name
    bank_name := patch.bank_name.getD n.bank_name
    branch_number := patch.branch_number.getD n.branch_number
    branch_name := patch.branch_name.getD n.branch_name
    account_number := patch.account_number.getD n.account_number }

/-- `update_joining_notice` of `api/joining_notices.py`: only notices in
draft status may be edited. -/
def update_joining_notice (db : Store) (notice_id : Nat)
    (patch : JoiningNoticeUpdate) : Store × Except ApiError JoiningNotice :=
  match findNotice db notice_id with
  | none => (db, .error (notFound "Joining notice not found"))
  | some notice =>
    if notice.status ≠ .draft then
      (db, .error (badRequest "Can only edit joining notices in DRAFT status"))
    else
      let notice2 := applyNoticeUpdate patch notice
      (setNotice db notice2, .ok notice2)

/-- `not notice.full_name or not notice.employment_type or not notice.housing_type`. -/
def requiredMissing (n : JoiningNotice) : Bool :=
  !(strTruthy n.full_name) || !(etTruthy n.employment_type) || !(htTruthy n.housing_type)

/-- `notice.housing_type == "shataku" and not notice.apartment_id`. -/
def shatakuApartmentMissing (n : JoiningNotice) : Bool :=
  (n.housing_type == some .shataku) && !(natTruthy n.apartment_id)

/-- `notice.employment_type == UKEOI and (not bank_account_name or not account_number)`. -/
def ukeoiBankMissing (n : JoiningNotice) : Bool :=
  (n.employment_type == some .ukeoi) &&
    (!(strTruthy n.bank_account_name) || !(strTruthy n.account_number))

/-- `submit_for_approval` of `api/joining_notices.py`: requires draft status,
runs the three validation checks, then sets status pending and
`submitted_at = now`. -/
def submit_for_approval (db : Store) (notice_id : Nat) (now : Nat) :
    Store × Except ApiError JoiningNotice :=
  match findNotice db notice_id with
  | none => (db, .error (notFound "Joining notice not found"))
  | some notice =>
    if notice.status ≠ .draft then
      (db, .error (badRequest "Joining notice is not in DRAFT status"))
    else if requiredMissing notice then
      (db, .error (badRequest "Missing required fields"))
    else if shatakuApartmentMissing notice then
      (db, .error (badRequest "Apartment is required for 社宅 housing type"))
    else if ukeoiBankMissing notice then
      (db, .error (badRequest "Bank information is required for 請負社員"))
    else
      let notice2 := { notice with status := .pending, submitted_at := some now }
      (setNotice db notice2, .ok notice2)

/-- `select(Employee.employee_number).order_by(desc).limit(1)` +
`scalar_one_or_none()`: the maximum allocated employee number, if any. -/
def maxEmployeeNumber : List Employee → Option Nat
  | [] => none
  | e :: es =>
    some (match maxEmployeeNumber es with
      | none => e.employee_number
      | some m => Nat.max e.employee_number m)

/-- `next_emp_number = (max_emp or 0) + 1`. -/
def nextEmployeeNumber (es : List Employee) : Nat :=
  (maxEmployeeNumber es).getD 0 + 1

/-- The `Employee(...)` constructed from the notice in `approve_joining_notice`;
`hire_date = notice.move_in_date or datetime.now(timezone.utc).date()`. -/
def employeeFromNotice (newEmpId : Nat) (empNumber : Nat) (notice : JoiningNotice)
    (today : Nat) : Employee :=
  { id := newEmpId
    employee_number := empNumber
    joining_notice_id := some notice.id
    candidate_id := some notice.candidate_id
    full_name := notice.full_name
    name_kana := notice.name_kana
    gender := notice.gender
    nationality := notice.nationality
    birth_date := notice.birth_date
    visa_expiry := notice.visa_expiry
    visa_type := notice.visa_type
    postal_code := notice.postal_code
    address := notice.address
    building_name := notice.building_name
    hire_date := some (notice.move_in_date.getD today)
    employment_type := notice.employment_type
    housing_type := notice.housing_type
    apartment_id := notice.apartment_id }

/-- The `HakenAssignment(...)` constructed in `approve_joining_notice`. -/
def hakenFromNotice (newAsgId : Nat) (employeeId : Nat) (notice : JoiningNotice) :
    HakenAssignment :=
  { id := newAsgId
    employee_id := employeeId
    client_company_id := notice.assignment_company_id
    client_company := notice.assignment_company
    assignment_location := notice.assignment_location
    assignment_line := notice.assignment_line
    job_description := notice.job_description
    hourly_rate := notice.hourly_rate
    billing_rate := notice.billing_rate
    move_in_date := notice.move_in_date
    start_date := notice.move_in_date }

/-- The `UkeoiAssignment(...)` constructed in `approve_joining_notice`. -/
def ukeoiFromNotice (newAsgId : Nat) (employeeId : Nat) (notice : JoiningNotice) :
    UkeoiAssignment :=
  { id := newAsgId
    employee_id := employeeId
    hourly_rate := notice.hourly_rate
    move_in_date := notice.move_in_date
    start_date := notice.move_in_date
    bank_account_name := notice.bank_account_name
    bank_name := notice.bank_name
    branch_number := notice.branch_number
    branch_name := notice.branch_name
    account_number := notice.account_number }

/-- `approve_joining_notice` of `api/joining_notices.py`: requires pending
status; allocates the next employee number, inserts the Employee, inserts a
HakenAssignment when `employment_type == HAKEN` and a UkeoiAssignment
otherwise, marks the notice approved with `approved_at`/`approved_by`, and
sets the candidate (when it exists) to hired.  The whole step is one
function application, matching the single transaction of the source. -/
def approve_joining_notice (db : Store) (notice_id : Nat) (userId : Nat)
    (now : Nat) (today : Nat) (newEmpId : Nat) (newAsgId : Nat) :
    Store × Except ApiError JoiningNotice :=
  match findNotice db notice_id with
  | none => (db, .error (notFound "Joining notice not found"))
  | some notice =>
    if notice.status ≠ .pending then
      (db, .error (badRequest "Joining notice is not pending approval"))
    else
      let employee := employeeFromNotice newEmpId (nextEmployeeNumber db.employees) notice today
      let db2 := { db with employees := db.employees ++ [employee] }
      let db3 :=
        if notice.employment_type = some .haken then
          { db2 with haken_assignments :=
              db2.haken_assignments ++ [hakenFromNotice newAsgId employee.id notice] }
        else
          { db2 with ukeoi_assignments :=
              db2.ukeoi_assignments ++ [ukeoiFromNotice newAsgId employee.id notice] }
      let notice2 := { notice with
        status := .approved
        approved_at := some now
        approved_by := some userId }
      let db4 := setNotice db3 notice2
      let db5 :=
        match findCandidate db4 notice.candidate_id with
        | none => db4
        | some cand => updateCandidateStatus db4 cand.id .hired
      (db5, .ok notice2)

/-- `reject_joining_notice` of `api/joining_notices.py`: requires pending
status; sets status rejected, stores `rejection_reason` and `approved_by`.
No candidate row is read or written. -/
def reject_joining_notice (db : Store) (notice_id : Nat) (reason : String)
    (userId : Nat) : Store × Except ApiError JoiningNotice :=
  match findNotice db notice_id with
  | none => (db, .error (notFound "Joining notice not found"))
  | some notice =>
    if notice.status ≠ .pending then
      (db, .error (badRequest "Joining notice is not pending approval"))
    else
      let notice2 := { notice with
        status := .rejected
        rejection_reason := some reason
        approved_by := some userId }
      (setNotice db notice2, .ok notice2)

/-! Small facts about the store helpers, shared by the proofs below. -/

theorem candidates_setNotice (db : Store) (n : JoiningNotice) :
    (setNotice db n).candidates = db.candidates := rfl

theorem find?_id_eq {l : List Candidate} {cid : Nat} {c : Candidate}
    (h : l.find? (fun x => x.id == cid) = some c) : c.id = cid := by
  have h2 := List.find?_some h
  exact eq_of_beq h2

/-- The approved version of a notice, as written by `approve_joining_notice`. -/
def approvedNotice (notice : JoiningNotice) (uid now : Nat) : JoiningNotice :=
  { notice with status := .approved, approved_at := some now, approved_by := some uid }

/-- The store produced by a successful approval of a haken notice. -/
def approveStoreHaken (db : Store) (notice : JoiningNotice)
    (uid now today eid aid : Nat) : Store :=
  let employee := employeeFromNotice eid (nextEmployeeNumber db.employees) notice today
  let db3 : Store := { db with
    employees := db.employees ++ [employee]
    haken_assignments := db.haken_assignments ++ [hakenFromNotice aid eid notice] }
  let db4 := setNotice db3 (approvedNotice notice uid now)
  match findCandidate db notice.candidate_id with
  | none => db4
  | some cand => updateCandidateStatus db4 cand.id .hired

/-- The store produced by a successful approval of a non-haken notice. -/
def approveStoreUkeoi (db : Store) (notice : JoiningNotice)
    (uid now today eid aid : Nat) : Store :=
  let employee := employeeFromNotice eid (nextEmployeeNumber db.employees) notice today
  let db3 : Store := { db with
    employees := db.employees ++ [employee]
    ukeoi_assignments := db.ukeoi_assignments ++ [ukeoiFromNotice aid eid notice] }
  let db4 := setNotice db3 (approvedNotice notice uid now)
  match findCandidate db notice.candidate_id with
  | none => db4
  | some cand => updateCandidateStatus db4 cand.id .hired

theorem approve_eq_haken (db : Store) (nid uid now today eid aid : Nat)
    (notice : JoiningNotice) (hn : findNotice db nid = some notice)
    (hp : notice.status = .pending)
    (het : notice.employment_type = some .haken) :
    approve_joining_notice db nid uid now today eid aid =
      (approveStoreHaken db notice uid now today eid aid,
       .ok (approvedNotice notice uid now)) := by
  unfold approve_joining_notice approveStoreHaken approvedNotice
  rw [hn]
  simp only [hp, het, ne_eq, not_true_eq_false, if_false, reduceIte]
  rfl

theorem approve_eq_else (db : Store) (nid uid now today eid aid : Nat)
    (notice : JoiningNotice) (hn : findNotice db nid = some notice)
    (hp : notice.status = .pending)
    (het : notice.employment_type ≠ some .haken) :
    approve_joining_notice db nid uid now today eid aid =
      (approveStoreUkeoi db notice uid now today eid aid,
       .ok (approvedNotice notice uid now)) := by
  unfold approve_joining_notice approveStoreUkeoi approvedNotice
  rw [hn]
  simp only [hp, ne_eq, not_true_eq_false, if_false]
  rw [if_neg het]
  rfl

theorem approve_eq_invalid_state (db : Store) (nid uid now today eid aid : Nat)
    (notice : JoiningNotice) (hn : findNotice db nid = some notice)
    (hp : notice.status ≠ .pending) :
    approve_joining_notice db nid uid now today eid aid =
      (db, .error (badRequest "Joining notice is not pending approval")) := by
  unfold approve_joining_notice
  rw [hn]
  simp only [ne_eq, hp, not_false_eq_true, if_true]

/-! Witness fixtures: concrete rows used to instantiate the theorems below. -/

def wCandProcessing : Candidate := { id := 7, status := .processing }

def wNoticeHaken : JoiningNotice :=
  { id := 1
    candidate_id := 7
    employment_type := some .haken
    full_name := some "Tanaka Ichiro"
    housing_type := some .rental
    status := .pending }

def wStoreApprove : Store :=
  { candidates := [wCandProcessing], notices := [wNoticeHaken] }

def wNoticeDraft : JoiningNotice :=
  { id := 2
    candidate_id := 7
    employment_type := some .haken
    full_name := some "Sato Jiro"
    housing_type := some .own
    status := .draft }

def wStoreDraft : Store :=
  { candidates := [wCandProcessing], notices := [wNoticeDraft] }

/-- C1: approving a pending joining notice succeeds, marks the notice
approved with `approved_at`/`approved_by`, creates exactly one new Employee
whose `employment_type` equals the notice's, creates exactly one Assignment
for it — a HakenAssignment when the employment type is haken and a
UkeoiAssignment when it is ukeoi, never both and never neither — and sets
the referenced candidate to hired; approving a notice whose status is not
pending fails with the invalid-state error and leaves the store unchanged. -/
theorem c1_approve_transition
    (db db2 : Store) (nid nid2 uid now today eid aid : Nat)
    (notice notice2 : JoiningNotice) (cand : Candidate) (et : EmploymentType)
    (hn : findNotice db nid = some notice)
    (hp : notice.status = .pending)
    (hc : findCandidate db notice.candidate_id = some cand)
    (het : notice.employment_type = some et)
    (hn2 : findNotice db2 nid2 = some notice2)
    (hp2 : notice2.status ≠ .pending) :
    (approve_joining_notice db nid uid now today eid aid).2 =
      .ok { notice with status := .approved, approved_at := some now,
                        approved_by := some uid } ∧
    (approve_joining_notice db nid uid now today eid aid).1.employees =
      db.employees ++ [employeeFromNotice eid (nextEmployeeNumber db.employees) notice today] ∧
    (employeeFromNotice eid (nextEmployeeNumber db.employees) notice today).employment_type =
      notice.employment_type ∧
    ((et = .haken ∧
      (approve_joining_notice db nid uid now today eid aid).1.haken_assignments =
        db.haken_assignments ++ [hakenFromNotice aid eid notice] ∧
      (approve_joining_notice db nid uid now today eid aid).1.ukeoi_assignments =
        db.ukeoi_assignments) ∨
     (et = .ukeoi ∧
      (approve_joining_notice db nid uid now today eid aid).1.ukeoi_assignments =
        db.ukeoi_assignments ++ [ukeoiFromNotice aid eid notice] ∧
      (approve_joining_notice db nid uid now today eid aid).1.haken_assignments =
        db.haken_assignments)) ∧
    (approve_joining_notice db nid uid now today eid aid).1.candidates =
      db.candidates.map (fun c =>
        if c.id == notice.candidate_id then { c with status := CandidateStatus.hired } else c) ∧
    approve_joining_notice db2 nid2 uid now today eid aid =
      (db2, .error (badRequest "Joining notice is not pending approval")) := by
  have hcid : cand.id = notice.candidate_id := find?_id_eq hc
  have hfail := approve_eq_invalid_state db2 nid2 uid now today eid aid notice2 hn2 hp2
  cases et with
  | haken =>
    rw [approve_eq_haken db nid uid now today eid aid notice hn hp het]
    refine ⟨rfl, ?_, rfl, Or.inl ⟨rfl, ?_, ?_⟩, ?_, hfail⟩ <;>
      · unfold approveStoreHaken
        rw [show findCandidate db notice.candidate_id = some cand from hc]
        simp only [updateCandidateStatus, setNotice, hcid]
        try rfl
  | ukeoi =>
    have hne : notice.employment_type ≠ some EmploymentType.haken := by
      rw [het]
      simp
    rw [approve_eq_else db nid uid now today eid aid notice hn hp hne]
    refine ⟨rfl, ?_, rfl, Or.inr ⟨rfl, ?_, ?_⟩, ?_, hfail⟩ <;>
      · unfold approveStoreUkeoi
        rw [show findCandidate db notice.candidate_id = some cand from hc]
        simp only [updateCandidateStatus, setNotice, hcid]
        try rfl

/-- Witness for C1: the approval of the concrete pending haken notice of
`wStoreApprove`, and the rejected approval of the draft notice of
`wStoreDraft`. -/
theorem c1_approve_transition_witness :
    (approve_joining_notice wStoreApprove 1 9 100 50 10 20).2 =
      .ok { wNoticeHaken with status := .approved, approved_at := some 100,
                              approved_by := some 9 } ∧
    (approve_joining_notice wStoreApprove 1 9 100 50 10 20).1.employees =
      wStoreApprove.employees ++
        [employeeFromNotice 10 (nextEmployeeNumber wStoreApprove.employees) wNoticeHaken 50] ∧
    (employeeFromNotice 10 (nextEmployeeNumber wStoreApprove.employees)
        wNoticeHaken 50).employment_type = wNoticeHaken.employment_type ∧
    ((EmploymentType.haken = EmploymentType.haken ∧
      (approve_joining_notice wStoreApprove 1 9 100 50 10 20).1.haken_assignments =
        wStoreApprove.haken_assignments ++ [hakenFromNotice 20 10 wNoticeHaken] ∧
      (approve_joining_notice wStoreApprove 1 9 100 50 10 20).1.ukeoi_assignments =
        wStoreApprove.ukeoi_assignments) ∨
     (EmploymentType.haken = EmploymentType.ukeoi ∧
      (approve_joining_notice wStoreApprove 1 9 100 50 10 20).1.ukeoi_assignments =
        wStoreApprove.ukeoi_assignments ++ [ukeoiFromNotice 20 10 wNoticeHaken] ∧
      (approve_joining_notice wStoreApprove 1 9 100 50 10 20).1.haken_assignments =
        wStoreApprove.haken_assignments)) ∧
    (approve_joining_notice wStoreApprove 1 9 100 50 10 20).1.candidates =
      wStoreApprove.candidates.map (fun c =>
        if c.id == wNoticeHaken.candidate_id then { c with status := CandidateStatus.hired }
        else c) ∧
    approve_joining_notice wStoreDraft 2 9 100 50 10 20 =
      (wStoreDraft, .error (badRequest "Joining notice is not pending approval")) :=
  c1_approve_transition wStoreApprove wStoreDraft 1 2 9 100 50 10 20
    wNoticeHaken wNoticeDraft wCandProcessing .haken rfl rfl rfl rfl rfl (by decide)

/-- The rejected version of a notice, as written by `reject_joining_notice`. -/
def rejectedNotice (notice : JoiningNotice) (reason : String) (uid : Nat) : JoiningNotice :=
  { notice with status := .rejected, rejection_reason := some reason, approved_by := some uid }

theorem reject_eq_pending (db : Store) (nid : Nat) (reason : String) (uid : Nat)
    (notice : JoiningNotice) (hn : findNotice db nid = some notice)
    (hp : notice.status = .pending) :
    reject_joining_notice db nid reason uid =
      (setNotice db (rejectedNotice notice reason uid), .ok (rejectedNotice notice reason uid)) := by
  unfold reject_joining_notice rejectedNotice
  rw [hn]
  simp only [hp, ne_eq, not_true_eq_false, if_false]

theorem reject_eq_invalid_state (db : Store) (nid : Nat) (reason : String) (uid : Nat)
    (notice : JoiningNotice) (hn : findNotice db nid = some notice)
    (hp : notice.status ≠ .pending) :
    reject_joining_notice db nid reason uid =
      (db, .error (badRequest "Joining notice is not pending approval")) := by
  unfold reject_joining_notice
  rw [hn]
  simp only [ne_eq, hp, not_false_eq_true, if_true]

/-- C5: rejecting a pending joining notice succeeds, sets its status to
rejected and stores `rejection_reason` and `approved_by`; the candidate rows
(and every other table) are untouched, so the referenced candidate keeps its
current status (processing in the normal flow); rejecting a non-pending
notice fails with the invalid-state error and changes nothing. -/
theorem c5_reject_transition (db db2 : Store) (nid nid2 uid : Nat)
    (reason reason2 : String) (notice notice2 : JoiningNotice)
    (hn : findNotice db nid = some notice) (hp : notice.status = .pending)
    (hn2 : findNotice db2 nid2 = some notice2) (hp2 : notice2.status ≠ .pending) :
    (reject_joining_notice db nid reason uid).2 =
      .ok { notice with status := .rejected, rejection_reason := some reason,
                        approved_by := some uid } ∧
    (reject_joining_notice db nid reason uid).1.notices =
      db.notices.map (fun x => if x.id == notice.id then rejectedNotice notice reason uid else x) ∧
    (reject_joining_notice db nid reason uid).1.candidates = db.candidates ∧
    (reject_joining_notice db nid reason uid).1.applications = db.applications ∧
    (reject_joining_notice db nid reason uid).1.employees = db.employees ∧
    reject_joining_notice db2 nid2 reason2 uid =
      (db2, .error (badRequest "Joining notice is not pending approval")) := by
  rw [reject_eq_pending db nid reason uid notice hn hp]
  exact ⟨rfl, rfl, rfl, rfl, rfl,
    reject_eq_invalid_state db2 nid2 reason2 uid notice2 hn2 hp2⟩

/-- Witness for C5: rejecting the concrete pending notice of `wStoreApprove`
and the draft notice of `wStoreDraft`. -/
theorem c5_reject_transition_witness :
    (reject_joining_notice wStoreApprove 1 "incomplete docs" 9).2 =
      .ok { wNoticeHaken with status := .rejected,
                              rejection_reason := some "incomplete docs",
                              approved_by := some 9 } ∧
    (reject_joining_notice wStoreApprove 1 "incomplete docs" 9).1.notices =
      wStoreApprove.notices.map (fun x =>
        if x.id == wNoticeHaken.id then rejectedNotice wNoticeHaken "incomplete docs" 9 else x) ∧
    (reject_joining_notice wStoreApprove 1 "incomplete docs" 9).1.candidates =
      wStoreApprove.candidates ∧
    (reject_joining_notice wStoreApprove 1 "incomplete docs" 9).1.applications =
      wStoreApprove.applications ∧
    (reject_joining_notice wStoreApprove 1 "incomplete docs" 9).1.employees =
      wStoreApprove.employees ∧
    reject_joining_notice wStoreDraft 2 "n" 9 =
      (wStoreDraft, .error (badRequest "Joining notice is not pending approval")) :=
  c5_reject_transition wStoreApprove wStoreDraft 1 2 9 "incomplete docs" "n"
    wNoticeHaken wNoticeDraft rfl rfl rfl (by decide)

/-- The maximum query of the identifier allocator really is the maximum:
whenever it answers `some v`, `v` is an allocated number and an upper bound. -/
theorem maxEmployeeNumber_spec (e : Employee) (tl : List Employee) :
    ∃ v, maxEmployeeNumber (e :: tl) = some v ∧
      v ∈ (e :: tl).map (fun x => x.employee_number) ∧
      ∀ x ∈ (e :: tl).map (fun x => x.employee_number), x ≤ v := by
  induction tl generalizing e with
  | nil =>
    refine ⟨e.employee_number, rfl, by simp, ?_⟩
    intro x hx
    simp only [List.map_cons, List.map_nil, List.mem_singleton] at hx
    omega
  | cons e2 tl2 ih =>
    obtain ⟨v2, hv2, hmem2, hub2⟩ := ih e2
    refine ⟨Nat.max e.employee_number v2, ?_, ?_, ?_⟩
    · unfold maxEmployeeNumber
      rw [hv2]
    · rcases Nat.le_total e.employee_number v2 with h | h
      · have hmx : Nat.max e.employee_number v2 = v2 := Nat.max_eq_right h
        rw [hmx]
        exact List.mem_cons_of_mem _ hmem2
      · have hmx : Nat.max e.employee_number v2 = e.employee_number := Nat.max_eq_left h
        rw [hmx]
        exact List.mem_cons_self _ _
    · intro x hx
      rw [List.map_cons, List.mem_cons] at hx
      rcases hx with rfl | hx2
      · exact Nat.le_max_left _ _
      · exact Nat.le_trans (hub2 x hx2) (Nat.le_max_right _ _)

/-- C6: the employee-number allocator used during approval returns the
current maximum allocated number plus one, and 1 when no employee row
exists; in particular the first approval in a store with no employees
creates the employee with number 1. -/
theorem c6_next_employee_number (es : List Employee) (m : Nat)
    (hmem : m ∈ es.map (fun e => e.employee_number))
    (hub : ∀ x ∈ es.map (fun e => e.employee_number), x ≤ m)
    (db : Store) (nid uid now today eid aid : Nat) (notice : JoiningNotice)
    (hn : findNotice db nid = some notice) (hp : notice.status = .pending)
    (hemp : db.employees = []) :
    nextEmployeeNumber es = m + 1 ∧
    nextEmployeeNumber [] = 1 ∧
    (approve_joining_notice db nid uid now today eid aid).1.employees =
      [employeeFromNotice eid 1 notice today] ∧
    (employeeFromNotice eid 1 notice today).employee_number = 1 := by
  have hmax : maxEmployeeNumber es = some m := by
    cases es with
    | nil => cases hmem
    | cons e tl =>
      obtain ⟨v, hv, hvmem, hvub⟩ := maxEmployeeNumber_spec e tl
      have h1 : m ≤ v := hvub m hmem
      have h2 : v ≤ m := hub v hvmem
      have hvm : v = m := Nat.le_antisymm h2 h1
      rw [hv, hvm]
  refine ⟨?_, rfl, ?_, rfl⟩
  · unfold nextEmployeeNumber
    rw [hmax]
    rfl
  · by_cases hty : notice.employment_type = some EmploymentType.haken
    · rw [approve_eq_haken db nid uid now today eid aid notice hn hp hty]
      unfold approveStoreHaken
      cases hfc : findCandidate db notice.candidate_id with
      | none =>
        simp only [hfc]
        rw [hemp]
        rfl
      | some cand =>
        simp only [hfc]
        rw [hemp]
        rfl
    · rw [approve_eq_else db nid uid now today eid aid notice hn hp hty]
      unfold approveStoreUkeoi
      cases hfc : findCandidate db notice.candidate_id with
      | none =>
        simp only [hfc]
        rw [hemp]
        rfl
      | some cand =>
        simp only [hfc]
        rw [hemp]
        rfl

/-- Witness for C6: the allocator on a one-employee list, and the first
approval in `wStoreApprove`, which has no employees. -/
theorem c6_next_employee_number_witness :
    nextEmployeeNumber [{ id := 3, employee_number := 41, full_name := some "A" }] = 42 ∧
    nextEmployeeNumber [] = 1 ∧
    (approve_joining_notice wStoreApprove 1 9 100 50 10 20).1.employees =
      [employeeFromNotice 10 1 wNoticeHaken 50] ∧
    (employeeFromNotice 10 1 wNoticeHaken 50).employee_number = 1 :=
  c6_next_employee_number [{ id := 3, employee_number := 41, full_name := some "A" }] 41
    (by simp) (by simp) wStoreApprove 1 9 100 50 10 20 wNoticeHaken rfl rfl rfl


/-- The `Application(...)` constructed in `create_application`. -/
def applicationFromCreate (newId : Nat) (data : ApplicationCreate) (uid now : Nat) :
    Application :=
  { id := newId
    candidate_id := data.candidate_id
    client_company_id := data.client_company_id
    client_company_name := data.client_company_name
    presented_at := some now
    status := some .pending
    created_by := some uid }

/-- C2 counterexample: the claimed precondition "candidate status must be
registered or rejected" is not enforced — presenting a candidate whose
status is hired succeeds and even moves the candidate back to presented. -/
theorem c2_present_counterexample :
    (CandidateStatus.hired ≠ CandidateStatus.registered ∧
     CandidateStatus.hired ≠ CandidateStatus.rejected) ∧
    (create_application { candidates := [{ id := 7, status := .hired }] }
        { candidate_id := 7 } 1 100 5).2 =
      .ok (applicationFromCreate 5 { candidate_id := 7 } 1 100) ∧
    (create_application { candidates := [{ id := 7, status := .hired }] }
        { candidate_id := 7 } 1 100 5).1.candidates =
      [{ id := 7, status := CandidateStatus.presented }] := by
  decide

/-- C2 (amended): `present` checks only that the candidate exists — no
candidate-status precondition is enforced.  For any existing candidate,
whatever its status, it creates an Application with status pending and
`presented_at = now` and sets the candidate's status to presented; it fails
with the not-found error when the candidate does not exist. -/
theorem c2_present (db db2 : Store) (data data2 : ApplicationCreate)
    (uid now newId : Nat) (cand : Candidate)
    (hc : findCandidate db data.candidate_id = some cand)
    (hc2 : findCandidate db2 data2.candidate_id = none) :
    (create_application db data uid now newId).2 =
      .ok (applicationFromCreate newId data uid now) ∧
    (create_application db data uid now newId).1.applications =
      db.applications ++ [applicationFromCreate newId data uid now] ∧
    (create_application db data uid now newId).1.candidates =
      db.candidates.map (fun c =>
        if c.id == data.candidate_id then { c with status := CandidateStatus.presented }
        else c) ∧
    (create_application db data uid now newId).1.notices = db.notices ∧
    create_application db2 data2 uid now newId =
      (db2, .error (notFound "Candidate not found")) := by
  have hok : create_application db data uid now newId =
      ({ db with
          applications := db.applications ++ [applicationFromCreate newId data uid now]
          candidates := db.candidates.map (fun c =>
            if c.id == data.candidate_id then { c with status := CandidateStatus.presented }
            else c) },
       .ok (applicationFromCreate newId data uid now)) := by
    unfold create_application applicationFromCreate
    rw [hc]
    rfl
  have herr : create_application db2 data2 uid now newId =
      (db2, .error (notFound "Candidate not found")) := by
    unfold create_application
    rw [hc2]
  rw [hok]
  exact ⟨rfl, rfl, rfl, rfl, herr⟩

def wCandRegistered : Candidate := { id := 3, status := .registered }

def wStorePresent : Store := { candidates := [wCandRegistered] }

/-- Witness for C2: presenting the registered candidate of `wStorePresent`,
and presenting a missing candidate in an empty store. -/
theorem c2_present_witness :
    (create_application wStorePresent { candidate_id := 3 } 1 100 5).2 =
      .ok (applicationFromCreate 5 { candidate_id := 3 } 1 100) ∧
    (create_application wStorePresent { candidate_id := 3 } 1 100 5).1.applications =
      wStorePresent.applications ++ [applicationFromCreate 5 { candidate_id := 3 } 1 100] ∧
    (create_application wStorePresent { candidate_id := 3 } 1 100 5).1.candidates =
      wStorePresent.candidates.map (fun c =>
        if c.id == ({ candidate_id := 3 } : ApplicationCreate).candidate_id then
          { c with status := CandidateStatus.presented }
        else c) ∧
    (create_application wStorePresent { candidate_id := 3 } 1 100 5).1.notices =
      wStorePresent.notices ∧
    create_application {} { candidate_id := 4 } 1 100 5 =
      ({}, .error (notFound "Candidate not found")) :=
  c2_present wStorePresent {} { candidate_id := 3 } { candidate_id := 4 } 1 100 5
    wCandRegistered rfl rfl


/-- The submitted version of a notice, as written by `submit_for_approval`. -/
def submittedNotice (notice : JoiningNotice) (now : Nat) : JoiningNotice :=
  { notice with status := .pending, submitted_at := some now }

theorem submit_eq_invalid_state (db : Store) (nid now : Nat) (notice : JoiningNotice)
    (hn : findNotice db nid = some notice) (hd : notice.status ≠ .draft) :
    submit_for_approval db nid now =
      (db, .error (badRequest "Joining notice is not in DRAFT status")) := by
  unfold submit_for_approval
  rw [hn]
  simp only [ne_eq, hd, not_false_eq_true, if_true]

theorem submit_eq_required_missing (db : Store) (nid now : Nat) (notice : JoiningNotice)
    (hn : findNotice db nid = some notice) (hd : notice.status = .draft)
    (h1 : requiredMissing notice = true) :
    submit_for_approval db nid now =
      (db, .error (badRequest "Missing required fields")) := by
  unfold submit_for_approval
  rw [hn]
  simp only [hd, ne_eq, not_true_eq_false, if_false, h1, if_true]

theorem submit_eq_apartment_missing (db : Store) (nid now : Nat) (notice : JoiningNotice)
    (hn : findNotice db nid = some notice) (hd : notice.status = .draft)
    (h1 : requiredMissing notice = false) (h2 : shatakuApartmentMissing notice = true) :
    submit_for_approval db nid now =
      (db, .error (badRequest "Apartment is required for 社宅 housing type")) := by
  unfold submit_for_approval
  rw [hn]
  simp only [hd, ne_eq, not_true_eq_false, if_false, h1, h2, if_true, Bool.false_eq_true]

theorem submit_eq_bank_missing (db : Store) (nid now : Nat) (notice : JoiningNotice)
    (hn : findNotice db nid = some notice) (hd : notice.status = .draft)
    (h1 : requiredMissing notice = false) (h2 : shatakuApartmentMissing notice = false)
    (h3 : ukeoiBankMissing notice = true) :
    submit_for_approval db nid now =
      (db, .error (badRequest "Bank information is required for 請負社員")) := by
  unfold submit_for_approval
  rw [hn]
  simp only [hd, ne_eq, not_true_eq_false, if_false, h1, h2, h3, if_true, Bool.false_eq_true]

theorem submit_eq_success (db : Store) (nid now : Nat) (notice : JoiningNotice)
    (hn : findNotice db nid = some notice) (hd : notice.status = .draft)
    (h1 : requiredMissing notice = false) (h2 : shatakuApartmentMissing notice = false)
    (h3 : ukeoiBankMissing notice = false) :
    submit_for_approval db nid now =
      (setNotice db (submittedNotice notice now), .ok (submittedNotice notice now)) := by
  unfold submit_for_approval submittedNotice
  rw [hn]
  simp only [hd, ne_eq, not_true_eq_false, if_false, h1, h2, h3, Bool.false_eq_true]

def c3NoticeA : JoiningNotice :=
  { id := 1
    candidate_id := 7
    employment_type := some .haken
    full_name := none
    housing_type := some .rental
    status := .draft }

def c3NoticeB : JoiningNotice :=
  { id := 1
    candidate_id := 7
    employment_type := some .haken
    full_name := some "Suzuki Hanako"
    housing_type := none
    status := .draft }

/-- C3 counterexample: the required-field check does not name the specific
missing field.  A notice missing only `full_name` and a notice missing only
`housing_type` draw the very same fixed error message "Missing required
fields", so the error cannot identify which field was missing. -/
theorem c3_submit_counterexample :
    (submit_for_approval { notices := [c3NoticeA] } 1 100).2 =
      .error (badRequest "Missing required fields") ∧
    (submit_for_approval { notices := [c3NoticeB] } 1 100).2 =
      .error (badRequest "Missing required fields") ∧
    c3NoticeA.full_name = none ∧ c3NoticeA.housing_type = some .rental ∧
    c3NoticeB.full_name = some "Suzuki Hanako" ∧ c3NoticeB.housing_type = none := by
  decide

/-- C3 (amended): `submit` requires draft status; it validates presence of
`full_name`/`employment_type`/`housing_type`, of `apartment_id` when the
housing type is shataku, and of `bank_account_name`/`account_number` when
the employment type is ukeoi.  Each failure returns a 400 error identifying
the violated rule (a generic "Missing required fields" for the first check,
without naming the individual field) and leaves the store — hence the
draft status — unchanged; on success the status becomes pending and
`submitted_at = now`. -/
theorem c3_submit (db db2 : Store) (nid nid2 now : Nat)
    (notice notice2 : JoiningNotice)
    (hn : findNotice db nid = some notice) (hd : notice.status = .draft)
    (hn2 : findNotice db2 nid2 = some notice2) (hd2 : notice2.status ≠ .draft) :
    (requiredMissing notice = true →
      submit_for_approval db nid now =
        (db, .error (badRequest "Missing required fields"))) ∧
    (requiredMissing notice = false → shatakuApartmentMissing notice = true →
      submit_for_approval db nid now =
        (db, .error (badRequest "Apartment is required for 社宅 housing type"))) ∧
    (requiredMissing notice = false → shatakuApartmentMissing notice = false →
      ukeoiBankMissing notice = true →
      submit_for_approval db nid now =
        (db, .error (badRequest "Bank information is required for 請負社員"))) ∧
    (requiredMissing notice = false → shatakuApartmentMissing notice = false →
      ukeoiBankMissing notice = false →
      submit_for_approval db nid now =
        (setNotice db (submittedNotice notice now), .ok (submittedNotice notice now))) ∧
    submit_for_approval db2 nid2 now =
      (db2, .error (badRequest "Joining notice is not in DRAFT status")) := by
  exact ⟨fun h1 => submit_eq_required_missing db nid now notice hn hd h1,
    fun h1 h2 => submit_eq_apartment_missing db nid now notice hn hd h1 h2,
    fun h1 h2 h3 => submit_eq_bank_missing db nid now notice hn hd h1 h2 h3,
    fun h1 h2 h3 => submit_eq_success db nid now notice hn hd h1 h2 h3,
    submit_eq_invalid_state db2 nid2 now notice2 hn2 hd2⟩

/-- Witness for C3: submitting the complete concrete draft notice of
`wStoreDraft`, and submitting the already-pending notice of
`wStoreApprove`. -/
theorem c3_submit_witness :
    (requiredMissing wNoticeDraft = true →
      submit_for_approval wStoreDraft 2 100 =
        (wStoreDraft, .error (badRequest "Missing required fields"))) ∧
    (requiredMissing wNoticeDraft = false → shatakuApartmentMissing wNoticeDraft = true →
      submit_for_approval wStoreDraft 2 100 =
        (wStoreDraft, .error (badRequest "Apartment is required for 社宅 housing type"))) ∧
    (requiredMissing wNoticeDraft = false → shatakuApartmentMissing wNoticeDraft = false →
      ukeoiBankMissing wNoticeDraft = true →
      submit_for_approval wStoreDraft 2 100 =
        (wStoreDraft, .error (badRequest "Bank information is required for 請負社員"))) ∧
    (requiredMissing wNoticeDraft = false → shatakuApartmentMissing wNoticeDraft = false →
      ukeoiBankMissing wNoticeDraft = false →
      submit_for_approval wStoreDraft 2 100 =
        (setNotice wStoreDraft (submittedNotice wNoticeDraft 100),
         .ok (submittedNotice wNoticeDraft 100))) ∧
    submit_for_approval wStoreApprove 1 100 =
      (wStoreApprove, .error (badRequest "Joining notice is not in DRAFT status")) :=
  c3_submit wStoreDraft wStoreApprove 2 1 100 wNoticeDraft wNoticeHaken
    rfl rfl rfl (by decide)


def c4Notice : JoiningNotice :=
  { id := 1
    candidate_id := 7
    employment_type := some .haken
    full_name := some "Ito Ken"
    housing_type := some .shataku
    apartment_id := some 99
    status := .draft }

def c4NoticeFull : JoiningNotice :=
  { id := 1
    candidate_id := 7
    employment_type := some .haken
    full_name := some "Ito Ken"
    housing_type := some .shataku
    apartment_id := some 5
    status := .draft }

/-- C4 counterexample: a shataku notice whose `apartment_id` points at no
apartment at all (the apartments table is empty) is accepted at submit, and
so is one pointing at an apartment already filled to capacity — existence
and capacity are never checked. -/
theorem c4_shataku_counterexample :
    (submit_for_approval { notices := [c4Notice] } 1 100).2 =
      .ok (submittedNotice c4Notice 100) ∧
    ({ notices := [c4Notice] } : Store).apartments = [] ∧
    (submit_for_approval
        { notices := [c4NoticeFull]
          apartments := [{ id := 5, capacity := some 1, current_occupants := 1 }] }
        1 100).2 =
      .ok (submittedNotice c4NoticeFull 100) := by
  decide

/-- C4 (amended): a shataku joining notice is accepted at submit as soon as
its `apartment_id` is set (non-null and nonzero); the apartments table is
never consulted, so neither existence nor available capacity of the
referenced apartment is checked.  A shataku notice without an apartment_id
is rejected with the apartment-required error. -/
theorem c4_shataku_submission (db db2 : Store) (nid nid2 now : Nat)
    (notice notice2 : JoiningNotice)
    (hn : findNotice db nid = some notice) (hd : notice.status = .draft)
    (hh : notice.housing_type = some .shataku)
    (hreq : requiredMissing notice = false)
    (hbank : ukeoiBankMissing notice = false)
    (hapt : natTruthy notice.apartment_id = true)
    (hn2 : findNotice db2 nid2 = some notice2) (hd2 : notice2.status = .draft)
    (hh2 : notice2.housing_type = some .shataku)
    (hreq2 : requiredMissing notice2 = false)
    (hapt2 : natTruthy notice2.apartment_id = false) :
    submit_for_approval db nid now =
      (setNotice db (submittedNotice notice now), .ok (submittedNotice notice now)) ∧
    submit_for_approval db2 nid2 now =
      (db2, .error (badRequest "Apartment is required for 社宅 housing type")) := by
  have hsm : shatakuApartmentMissing notice = false := by
    unfold shatakuApartmentMissing
    rw [hapt]
    simp
  have hsm2 : shatakuApartmentMissing notice2 = true := by
    unfold shatakuApartmentMissing
    rw [hh2, hapt2]
    simp
  exact ⟨submit_eq_success db nid now notice hn hd hreq hsm hbank,
    submit_eq_apartment_missing db2 nid2 now notice2 hn2 hd2 hreq2 hsm2⟩

def c4NoticeNoApt : JoiningNotice :=
  { id := 3
    candidate_id := 7
    employment_type := some .haken
    full_name := some "Ito Ken"
    housing_type := some .shataku
    apartment_id := none
    status := .draft }

/-- Witness for C4: the shataku notice with a (dangling) apartment_id is
accepted; the shataku notice without apartment_id is rejected. -/
theorem c4_shataku_submission_witness :
    submit_for_approval { notices := [c4Notice] } 1 100 =
      (setNotice { notices := [c4Notice] } (submittedNotice c4Notice 100),
       .ok (submittedNotice c4Notice 100)) ∧
    submit_for_approval { notices := [c4NoticeNoApt] } 3 100 =
      ({ notices := [c4NoticeNoApt] },
       .error (badRequest "Apartment is required for 社宅 housing type")) :=
  c4_shataku_submission { notices := [c4Notice] } { notices := [c4NoticeNoApt] }
    1 3 100 c4Notice c4NoticeNoApt rfl rfl rfl (by decide) (by decide) (by decide)
    rfl rfl rfl (by decide) (by decide)


theorem createNotice_eq_not_accepted (db : Store) (d : JoiningNoticeCreate)
    (uid newId : Nat) (cand : Candidate)
    (hc : findCandidate db d.candidate_id = some cand)
    (ha : cand.status ≠ .accepted) :
    create_joining_notice db d uid newId =
      (db, .error (badRequest "Candidate must be accepted before creating joining notice")) := by
  unfold create_joining_notice
  rw [hc]
  simp only [ne_eq, ha, not_false_eq_true, if_true]

theorem createNotice_eq_application_invalid (db : Store) (d : JoiningNoticeCreate)
    (uid newId : Nat) (cand : Candidate)
    (hc : findCandidate db d.candidate_id = some cand)
    (ha : cand.status = .accepted)
    (hb : applicationCheckFails db d = true) :
    create_joining_notice db d uid newId =
      (db, .error (badRequest "Application must be accepted")) := by
  unfold create_joining_notice
  rw [hc]
  simp only [ha, ne_eq, not_true_eq_false, if_false, hb, if_true]

theorem createNotice_eq_success (db : Store) (d : JoiningNoticeCreate)
    (uid newId : Nat) (cand : Candidate)
    (hc : findCandidate db d.candidate_id = some cand)
    (ha : cand.status = .accepted)
    (hb : applicationCheckFails db d = false) :
    create_joining_notice db d uid newId =
      ({ db with
          notices := db.notices ++ [noticeFromCreate newId d uid]
          candidates := db.candidates.map (fun c =>
            if c.id == d.candidate_id then { c with status := CandidateStatus.processing }
            else c) },
       .ok (noticeFromCreate newId d uid)) := by
  unfold create_joining_notice
  rw [hc]
  simp only [ha, ne_eq, not_true_eq_false, if_false, hb, Bool.false_eq_true]
  rfl

/-- C7: creating a joining notice requires the candidate to exist with
status accepted (otherwise a 400 precondition failure); when an application
reference is supplied, the application must exist with status accepted
(otherwise a 400 failure), whether it is missing or in another status; on
success — with or without an application reference — the new notice has
status draft and the candidate is moved to processing in the same
operation. -/
theorem c7_create_notice
    (db1 db2 db3 db4 db5 : Store) (d1 d2 d3 d4 d5 : JoiningNoticeCreate)
    (uid newId : Nat) (cand1 cand2 cand3 cand4 cand5 : Candidate)
    (app3 app4 : Application)
    (hc1 : findCandidate db1 d1.candidate_id = some cand1)
    (ha1 : cand1.status = .accepted)
    (happ1 : natTruthy d1.application_id = false)
    (hc2 : findCandidate db2 d2.candidate_id = some cand2)
    (ha2 : cand2.status ≠ .accepted)
    (hc3 : findCandidate db3 d3.candidate_id = some cand3)
    (ha3 : cand3.status = .accepted)
    (happ3 : natTruthy d3.application_id = true)
    (hfa3 : findApplication db3 (d3.application_id.getD 0) = some app3)
    (hst3 : app3.status ≠ some .accepted)
    (hc4 : findCandidate db4 d4.candidate_id = some cand4)
    (ha4 : cand4.status = .accepted)
    (happ4 : natTruthy d4.application_id = true)
    (hfa4 : findApplication db4 (d4.application_id.getD 0) = some app4)
    (hst4 : app4.status = some .accepted)
    (hc5 : findCandidate db5 d5.candidate_id = some cand5)
    (ha5 : cand5.status = .accepted)
    (happ5 : natTruthy d5.application_id = true)
    (hfa5 : findApplication db5 (d5.application_id.getD 0) = none) :
    create_joining_notice db1 d1 uid newId =
      ({ db1 with
          notices := db1.notices ++ [noticeFromCreate newId d1 uid]
          candidates := db1.candidates.map (fun c =>
            if c.id == d1.candidate_id then { c with status := CandidateStatus.processing }
            else c) },
       .ok (noticeFromCreate newId d1 uid)) ∧
    (noticeFromCreate newId d1 uid).status = .draft ∧
    create_joining_notice db2 d2 uid newId =
      (db2, .error (badRequest "Candidate must be accepted before creating joining notice")) ∧
    create_joining_notice db3 d3 uid newId =
      (db3, .error (badRequest "Application must be accepted")) ∧
    create_joining_notice db4 d4 uid newId =
      ({ db4 with
          notices := db4.notices ++ [noticeFromCreate newId d4 uid]
          candidates := db4.candidates.map (fun c =>
            if c.id == d4.candidate_id then { c with status := CandidateStatus.processing }
            else c) },
       .ok (noticeFromCreate newId d4 uid)) ∧
    (noticeFromCreate newId d4 uid).status = .draft ∧
    create_joining_notice db5 d5 uid newId =
      (db5, .error (badRequest "Application must be accepted")) := by
  have hb1 : applicationCheckFails db1 d1 = false := by
    unfold applicationCheckFails
    rw [happ1]
    simp
  have hb3 : applicationCheckFails db3 d3 = true := by
    unfold applicationCheckFails
    rw [happ3, hfa3]
    simp only [Bool.true_and]
    rw [beq_eq_false_iff_ne.mpr hst3]
    rfl
  have hb4 : applicationCheckFails db4 d4 = false := by
    unfold applicationCheckFails
    rw [happ4, hfa4]
    simp only [Bool.true_and]
    simp [hst4]
  have hb5 : applicationCheckFails db5 d5 = true := by
    unfold applicationCheckFails
    rw [happ5, hfa5]
    simp
  exact ⟨createNotice_eq_success db1 d1 uid newId cand1 hc1 ha1 hb1, rfl,
    createNotice_eq_not_accepted db2 d2 uid newId cand2 hc2 ha2,
    createNotice_eq_application_invalid db3 d3 uid newId cand3 hc3 ha3 hb3,
    createNotice_eq_success db4 d4 uid newId cand4 hc4 ha4 hb4, rfl,
    createNotice_eq_application_invalid db5 d5 uid newId cand5 hc5 ha5 hb5⟩

def wCandAccepted : Candidate := { id := 7, status := .accepted }

def wCandPresented : Candidate := { id := 7, status := .presented }

def wAppAccepted : Application :=
  { id := 4, candidate_id := 7, status := some .accepted }

def wAppRejected : Application :=
  { id := 4, candidate_id := 7, status := some .rejected }

def wCreateNoApp : JoiningNoticeCreate :=
  { candidate_id := 7
    employment_type := .haken
    full_name := "Mori Aya"
    housing_type := .rental }

def wCreateWithApp : JoiningNoticeCreate :=
  { candidate_id := 7
    employment_type := .haken
    full_name := "Mori Aya"
    housing_type := .rental
    application_id := some 4 }

def wStoreCand : Store := { candidates := [wCandAccepted] }

def wStoreCandPresented : Store := { candidates := [wCandPresented] }

def wStoreCandAppRejected : Store :=
  { candidates := [wCandAccepted], applications := [wAppRejected] }

def wStoreCandAppAccepted : Store :=
  { candidates := [wCandAccepted], applications := [wAppAccepted] }

/-- Witness for C7 on the five concrete scenarios. -/
theorem c7_create_notice_witness :
    create_joining_notice wStoreCand wCreateNoApp 1 11 =
      ({ wStoreCand with
          notices := wStoreCand.notices ++ [noticeFromCreate 11 wCreateNoApp 1]
          candidates := wStoreCand.candidates.map (fun c =>
            if c.id == wCreateNoApp.candidate_id then
              { c with status := CandidateStatus.processing }
            else c) },
       .ok (noticeFromCreate 11 wCreateNoApp 1)) ∧
    (noticeFromCreate 11 wCreateNoApp 1).status = .draft ∧
    create_joining_notice wStoreCandPresented wCreateNoApp 1 11 =
      (wStoreCandPresented,
       .error (badRequest "Candidate must be accepted before creating joining notice")) ∧
    create_joining_notice wStoreCandAppRejected wCreateWithApp 1 11 =
      (wStoreCandAppRejected, .error (badRequest "Application must be accepted")) ∧
    create_joining_notice wStoreCandAppAccepted wCreateWithApp 1 11 =
      ({ wStoreCandAppAccepted with
          notices := wStoreCandAppAccepted.notices ++ [noticeFromCreate 11 wCreateWithApp 1]
          candidates := wStoreCandAppAccepted.candidates.map (fun c =>
            if c.id == wCreateWithApp.candidate_id then
              { c with status := CandidateStatus.processing }
            else c) },
       .ok (noticeFromCreate 11 wCreateWithApp 1)) ∧
    (noticeFromCreate 11 wCreateWithApp 1).status = .draft ∧
    create_joining_notice wStoreCand wCreateWithApp 1 11 =
      (wStoreCand, .error (badRequest "Application must be accepted")) :=
  c7_create_notice wStoreCand wStoreCandPresented wStoreCandAppRejected
    wStoreCandAppAccepted wStoreCand wCreateNoApp wCreateNoApp wCreateWithApp
    wCreateWithApp wCreateWithApp 1 11 wCandAccepted wCandPresented wCandAccepted
    wCandAccepted wCandAccepted wAppRejected wAppAccepted
    rfl rfl rfl rfl (by decide) rfl rfl rfl rfl (by decide) rfl rfl rfl rfl rfl
    rfl rfl rfl rfl


/-- The updated application row written by `record_result`. -/
def resultApplication (app : Application) (rd : ApplicationUpdate) (now : Nat) :
    Application :=
  { app with status := rd.status, result_at := some now, result_notes := rd.result_notes }

/-- C8: recording a result requires the application to be pending (otherwise
a 400 invalid-state failure with the store unchanged); on success the single
returned store holds both the updated application row — outcome status,
`result_at = now`, stored notes — and the candidate row moved to accepted
when the outcome is accepted and to rejected when the outcome is rejected. -/
theorem c8_record_result (db db2 : Store) (aid aid2 now : Nat)
    (rd rd2 : ApplicationUpdate) (app appB : Application) (cand : Candidate)
    (ha : findApplication db aid = some app)
    (hp : app.status = some .pending)
    (hc : findCandidate db app.candidate_id = some cand)
    (ha2 : findApplication db2 aid2 = some appB)
    (hp2 : appB.status ≠ some .pending) :
    (record_result db aid rd now).2 = .ok (resultApplication app rd now) ∧
    (record_result db aid rd now).1.applications =
      db.applications.map (fun x =>
        if x.id == app.id then resultApplication app rd now else x) ∧
    (rd.status = some .accepted →
      (record_result db aid rd now).1.candidates =
        db.candidates.map (fun c =>
          if c.id == app.candidate_id then { c with status := CandidateStatus.accepted }
          else c)) ∧
    (rd.status = some .rejected →
      (record_result db aid rd now).1.candidates =
        db.candidates.map (fun c =>
          if c.id == app.candidate_id then { c with status := CandidateStatus.rejected }
          else c)) ∧
    record_result db2 aid2 rd2 now =
      (db2, .error (badRequest "Application result already recorded")) := by
  have hcid : cand.id = app.candidate_id := find?_id_eq hc
  refine ⟨?_, ?_, ?_, ?_, ?_⟩
  · unfold record_result resultApplication
    rw [ha]
    simp only [hp, ne_eq, not_true_eq_false, if_false]
  · unfold record_result resultApplication setApplication
    rw [ha]
    simp only [hp, ne_eq, not_true_eq_false, if_false]
    rw [hc]
    by_cases h1 : rd.status = some ApplicationStatus.accepted
    · simp only [h1, reduceIte]
      try rfl
    · by_cases h2 : rd.status = some ApplicationStatus.rejected
      · simp only [h1, h2, reduceIte]
        try rfl
      · simp only [h1, h2, reduceIte]
        try rfl
  · intro hout
    unfold record_result setApplication updateCandidateStatus
    rw [ha]
    simp only [hp, ne_eq, not_true_eq_false, if_false]
    rw [hc]
    simp only [hout, reduceIte, hcid]
    try rfl
  · intro hout
    unfold record_result setApplication updateCandidateStatus
    rw [ha]
    simp only [hp, ne_eq, not_true_eq_false, if_false]
    rw [hc]
    simp only [hout, reduceIte, hcid]
    try rfl
  · unfold record_result
    rw [ha2]
    simp only [ne_eq, hp2, not_false_eq_true, if_true]

def wCandPresented3 : Candidate := { id := 3, status := .presented }

def wAppPendingRow : Application :=
  { id := 2, candidate_id := 3, status := some .pending, presented_at := some 90 }

def wStoreRecord : Store :=
  { candidates := [wCandPresented3], applications := [wAppPendingRow] }

def wAccepted : ApplicationUpdate :=
  { status := some .accepted, result_notes := some "good fit" }

/-- Witness for C8: recording an accepted outcome on the pending application
of `wStoreRecord`, and on the already-decided application of
`wStoreCandAppAccepted`. -/
theorem c8_record_result_witness :
    (record_result wStoreRecord 2 wAccepted 100).2 =
      .ok (resultApplication wAppPendingRow wAccepted 100) ∧
    (record_result wStoreRecord 2 wAccepted 100).1.applications =
      wStoreRecord.applications.map (fun x =>
        if x.id == wAppPendingRow.id then resultApplication wAppPendingRow wAccepted 100
        else x) ∧
    (wAccepted.status = some .accepted →
      (record_result wStoreRecord 2 wAccepted 100).1.candidates =
        wStoreRecord.candidates.map (fun c =>
          if c.id == wAppPendingRow.candidate_id then
            { c with status := CandidateStatus.accepted }
          else c)) ∧
    (wAccepted.status = some .rejected →
      (record_result wStoreRecord 2 wAccepted 100).1.candidates =
        wStoreRecord.candidates.map (fun c =>
          if c.id == wAppPendingRow.candidate_id then
            { c with status := CandidateStatus.rejected }
          else c)) ∧
    record_result wStoreCandAppAccepted 4 wAccepted 100 =
      (wStoreCandAppAccepted, .error (badRequest "Application result already recorded")) :=
  c8_record_result wStoreRecord wStoreCandAppAccepted 2 4 100 wAccepted wAccepted
    wAppPendingRow wAppAccepted wCandPresented3 rfl rfl rfl rfl (by decide)


theorem update_eq_invalid_state (db : Store) (nid : Nat) (patch : JoiningNoticeUpdate)
    (notice : JoiningNotice) (hn : findNotice db nid = some notice)
    (hd : notice.status ≠ .draft) :
    update_joining_notice db nid patch =
      (db, .error (badRequest "Can only edit joining notices in DRAFT status")) := by
  unfold update_joining_notice
  rw [hn]
  simp only [ne_eq, hd, not_false_eq_true, if_true]

theorem recordResult_eq_invalid_state (db : Store) (aid now : Nat)
    (rd : ApplicationUpdate) (app : Application)
    (ha : findApplication db aid = some app)
    (hp : app.status ≠ some .pending) :
    record_result db aid rd now =
      (db, .error (badRequest "Application result already recorded")) := by
  unfold record_result
  rw [ha]
  simp only [ne_eq, hp, not_false_eq_true, if_true]

def c9NoticeDraftStatus : JoiningNotice :=
  { id := 1, candidate_id := 7, status := .draft }

def c9NoticeRejectedStatus : JoiningNotice :=
  { id := 1, candidate_id := 7, status := .rejected }

/-- C9 counterexample: the invalid-state error does not include the entity's
current status.  Approving a notice currently in draft and approving one
currently in rejected yield byte-identical error payloads, so the caller
cannot read the current status out of the error. -/
theorem c9_invalid_state_counterexample :
    c9NoticeDraftStatus.status ≠ c9NoticeRejectedStatus.status ∧
    (approve_joining_notice { notices := [c9NoticeDraftStatus] } 1 9 100 50 10 20).2 =
      .error { code := 400, detail := "Joining notice is not pending approval" } ∧
    (approve_joining_notice { notices := [c9NoticeRejectedStatus] } 1 9 100 50 10 20).2 =
      .error { code := 400, detail := "Joining notice is not pending approval" } := by
  decide

/-- C9 (amended): every InvalidState rejection — approving or rejecting a
non-pending notice, submitting or updating a non-draft notice, recording a
result on a non-pending application — is surfaced to the caller as an HTTP
400 error with a fixed, operation-specific message naming the required
state; the entity's current status is not included in the error. -/
theorem c9_invalid_state_surfaced
    (dbA dbR dbS dbU dbQ : Store) (nidA nidR nidS nidU aidQ uid now today eid asgid : Nat)
    (reason : String) (patch : JoiningNoticeUpdate) (rd : ApplicationUpdate)
    (nA nR nS nU : JoiningNotice) (appQ : Application)
    (hA : findNotice dbA nidA = some nA) (hpA : nA.status ≠ .pending)
    (hR : findNotice dbR nidR = some nR) (hpR : nR.status ≠ .pending)
    (hS : findNotice dbS nidS = some nS) (hpS : nS.status ≠ .draft)
    (hU : findNotice dbU nidU = some nU) (hpU : nU.status ≠ .draft)
    (hQ : findApplication dbQ aidQ = some appQ) (hpQ : appQ.status ≠ some .pending) :
    approve_joining_notice dbA nidA uid now today eid asgid =
      (dbA, .error { code := 400, detail := "Joining notice is not pending approval" }) ∧
    reject_joining_notice dbR nidR reason uid =
      (dbR, .error { code := 400, detail := "Joining notice is not pending approval" }) ∧
    submit_for_approval dbS nidS now =
      (dbS, .error { code := 400, detail := "Joining notice is not in DRAFT status" }) ∧
    update_joining_notice dbU nidU patch =
      (dbU, .error { code := 400, detail := "Can only edit joining notices in DRAFT status" }) ∧
    record_result dbQ aidQ rd now =
      (dbQ, .error { code := 400, detail := "Application result already recorded" }) :=
  ⟨approve_eq_invalid_state dbA nidA uid now today eid asgid nA hA hpA,
   reject_eq_invalid_state dbR nidR reason uid nR hR hpR,
   submit_eq_invalid_state dbS nidS now nS hS hpS,
   update_eq_invalid_state dbU nidU patch nU hU hpU,
   recordResult_eq_invalid_state dbQ aidQ now rd appQ hQ hpQ⟩

/-- Witness for C9 on concrete wrong-status entities. -/
theorem c9_invalid_state_surfaced_witness :
    approve_joining_notice wStoreDraft 2 9 100 50 10 20 =
      (wStoreDraft, .error { code := 400, detail := "Joining notice is not pending approval" }) ∧
    reject_joining_notice wStoreDraft 2 "late" 9 =
      (wStoreDraft, .error { code := 400, detail := "Joining notice is not pending approval" }) ∧
    submit_for_approval wStoreApprove 1 100 =
      (wStoreApprove, .error { code := 400, detail := "Joining notice is not in DRAFT status" }) ∧
    update_joining_notice wStoreApprove 1 {} =
      (wStoreApprove, .error { code := 400, detail := "Can only edit joining notices in DRAFT status" }) ∧
    record_result wStoreCandAppAccepted 4 wAccepted 100 =
      (wStoreCandAppAccepted, .error { code := 400, detail := "Application result already recorded" }) :=
  c9_invalid_state_surfaced wStoreDraft wStoreDraft wStoreApprove wStoreApprove
    wStoreCandAppAccepted 2 2 1 1 4 9 100 50 10 20 "late" {} wAccepted
    wNoticeDraft wNoticeDraft wNoticeHaken wNoticeHaken wAppAccepted
    rfl (by decide) rfl (by decide) rfl (by decide) rfl (by decide) rfl (by decide)

/-- C10: when the candidate referenced by a pending application or a pending
joining notice does not exist, `record_result` and `approve` still succeed —
the application result (respectively the approval, employee insert and
single assignment insert) is recorded, and the candidate-status update is
silently skipped: the candidates table is returned unchanged. -/
theorem c10_missing_candidate_skipped
    (db db2 : Store) (aid nid uid now today eid asgid : Nat)
    (rd : ApplicationUpdate) (app : Application) (notice : JoiningNotice)
    (ha : findApplication db aid = some app)
    (hp : app.status = some .pending)
    (hc : findCandidate db app.candidate_id = none)
    (hn2 : findNotice db2 nid = some notice)
    (hp2 : notice.status = .pending)
    (hc2 : findCandidate db2 notice.candidate_id = none) :
    (record_result db aid rd now).2 = .ok (resultApplication app rd now) ∧
    (record_result db aid rd now).1.candidates = db.candidates ∧
    (record_result db aid rd now).1.applications =
      db.applications.map (fun x =>
        if x.id == app.id then resultApplication app rd now else x) ∧
    (approve_joining_notice db2 nid uid now today eid asgid).2 =
      .ok (approvedNotice notice uid now) ∧
    (approve_joining_notice db2 nid uid now today eid asgid).1.candidates =
      db2.candidates ∧
    (approve_joining_notice db2 nid uid now today eid asgid).1.employees =
      db2.employees ++
        [employeeFromNotice eid (nextEmployeeNumber db2.employees) notice today] ∧
    (approve_joining_notice db2 nid uid now today eid asgid).1.haken_assignments.length +
      (approve_joining_notice db2 nid uid now today eid asgid).1.ukeoi_assignments.length =
      db2.haken_assignments.length + db2.ukeoi_assignments.length + 1 := by
  have hrec : record_result db aid rd now =
      (setApplication db (resultApplication app rd now),
       .ok (resultApplication app rd now)) := by
    unfold record_result resultApplication setApplication
    rw [ha]
    simp only [hp, ne_eq, not_true_eq_false, if_false]
    rw [hc]
  have hap : (approve_joining_notice db2 nid uid now today eid asgid).2 =
        .ok (approvedNotice notice uid now) ∧
      (approve_joining_notice db2 nid uid now today eid asgid).1.candidates =
        db2.candidates ∧
      (approve_joining_notice db2 nid uid now today eid asgid).1.employees =
        db2.employees ++
          [employeeFromNotice eid (nextEmployeeNumber db2.employees) notice today] ∧
      (approve_joining_notice db2 nid uid now today eid asgid).1.haken_assignments.length +
        (approve_joining_notice db2 nid uid now today eid asgid).1.ukeoi_assignments.length =
        db2.haken_assignments.length + db2.ukeoi_assignments.length + 1 := by
    by_cases hty : notice.employment_type = some EmploymentType.haken
    · rw [approve_eq_haken db2 nid uid now today eid asgid notice hn2 hp2 hty]
      unfold approveStoreHaken
      rw [hc2]
      refine ⟨rfl, rfl, rfl, ?_⟩
      simp only [setNotice, List.length_append, List.length_cons, List.length_nil]
      omega
    · rw [approve_eq_else db2 nid uid now today eid asgid notice hn2 hp2 hty]
      unfold approveStoreUkeoi
      rw [hc2]
      refine ⟨rfl, rfl, rfl, ?_⟩
      simp only [setNotice, List.length_append, List.length_cons, List.length_nil]
      omega
  rw [hrec]
  exact ⟨rfl, rfl, rfl, hap.1, hap.2.1, hap.2.2.1, hap.2.2.2⟩

def wAppOrphan : Application :=
  { id := 2, candidate_id := 99, status := some .pending, presented_at := some 90 }

def wStoreOrphanApp : Store := { applications := [wAppOrphan] }

def wStoreOrphanNotice : Store := { notices := [wNoticeHaken] }

/-- Witness for C10: a pending application and a pending notice whose
candidate ids resolve to no candidate row. -/
theorem c10_missing_candidate_skipped_witness :
    (record_result wStoreOrphanApp 2 wAccepted 100).2 =
      .ok (resultApplication wAppOrphan wAccepted 100) ∧
    (record_result wStoreOrphanApp 2 wAccepted 100).1.candidates =
      wStoreOrphanApp.candidates ∧
    (record_result wStoreOrphanApp 2 wAccepted 100).1.applications =
      wStoreOrphanApp.applications.map (fun x =>
        if x.id == wAppOrphan.id then resultApplication wAppOrphan wAccepted 100 else x) ∧
    (approve_joining_notice wStoreOrphanNotice 1 9 100 50 10 20).2 =
      .ok (approvedNotice wNoticeHaken 9 100) ∧
    (approve_joining_notice wStoreOrphanNotice 1 9 100 50 10 20).1.candidates =
      wStoreOrphanNotice.candidates ∧
    (approve_joining_notice wStoreOrphanNotice 1 9 100 50 10 20).1.employees =
      wStoreOrphanNotice.employees ++
        [employeeFromNotice 10 (nextEmployeeNumber wStoreOrphanNotice.employees)
          wNoticeHaken 50] ∧
    (approve_joining_notice wStoreOrphanNotice 1 9 100 50 10 20).1.haken_assignments.length +
      (approve_joining_notice wStoreOrphanNotice 1 9 100 50 10 20).1.ukeoi_assignments.length =
      wStoreOrphanNotice.haken_assignments.length +
        wStoreOrphanNotice.ukeoi_assignments.length + 1 :=
  c10_missing_candidate_skipped wStoreOrphanApp wStoreOrphanNotice 2 1 9 100 50 10 20
    wAccepted wAppOrphan wNoticeHaken rfl rfl rfl rfl rfl rfl

end Rireki
